import Mathlib

/-!
Verification of properties of the rfs-gsplat-render crate (a 3D Gaussian
Splatting renderer): the per-splat selection state, the CPU-side transforms
applied on GPU upload, the temporal-coherence skip decisions, the packed-SH
direction encoding, the GPU-picker apply step, and the radix sorter.

Modelling conventions: machine integers are `Nat` (with an explicit
`% 2 ^ 32` where u32 overflow matters); `f32` quantities are exact
rationals `ℚ`, except `f32::exp`, which is modelled by `Real.exp`;
u8 state flags are `Nat` values and the u8 complement masks are written
out (`!SELECTED` on a u8 is `0xFE = 254`, and so on). Camera geometry
(`Vec3::distance`, `Vec3::dot`) is abstracted: the temporal-coherence
functions take the camera sample type and the delta computation as
parameters, since the decision logic only consumes the three scalar
deltas.
-/

namespace GSplat

/-! ## Splat state bit flags (`gaussian_splats.rs`, `mod splat_state`) -/

/-- Bit 0: the splat is selected (`splat_state::SELECTED`). -/
def SELECTED : Nat := 1

/-- Bit 1: the splat is locked (`splat_state::LOCKED`). -/
def LOCKED : Nat := 2

/-- Bit 2: the splat is deleted (`splat_state::DELETED`). -/
def DELETED : Nat := 4

/-- u8 complement `!SELECTED = 0xFE`. -/
def NOT_SELECTED : Nat := 254

/-- u8 complement `!LOCKED = 0xFD`. -/
def NOT_LOCKED : Nat := 253

/-- u8 complement `!DELETED = 0xFB`. -/
def NOT_DELETED : Nat := 251

/-! ## `SplatSelectionState` (`gaussian_splats.rs`) -/

/-- CPU-side per-splat selection state: the `states` array (one u8 per
splat) plus the cached counts and the GPU-upload `dirty` flag. -/
structure SplatSelectionState where
  states : List Nat
  num_selected : Nat
  num_locked : Nat
  num_deleted : Nat
  dirty : Bool
deriving Repr, DecidableEq

namespace SplatSelectionState

/-- `SplatSelectionState::new`: N splats, all `NORMAL`, dirty. -/
def new (num_splats : Nat) : SplatSelectionState :=
  ⟨List.replicate num_splats 0, 0, 0, 0, true⟩

/-- One iteration of the loop body of `SplatSelectionState::select`:
out-of-range indices are ignored (`states.get_mut` returns `None`), and
the cached count is incremented only when the bit was not already set. -/
def selectStep (s : SplatSelectionState) (idx : Nat) : SplatSelectionState :=
  match s.states[idx]? with
  | none => s
  | some st =>
    if st &&& SELECTED = 0 then
      { s with states := s.states.set idx (st ||| SELECTED),
               num_selected := s.num_selected + 1 }
    else s

/-- `SplatSelectionState::select`: set the SELECTED bit for each index,
then set `dirty` unconditionally. -/
def select (s : SplatSelectionState) (indices : List Nat) : SplatSelectionState :=
  { indices.foldl selectStep s with dirty := true }

/-- One iteration of the loop body of `SplatSelectionState::deselect`. -/
def deselectStep (s : SplatSelectionState) (idx : Nat) : SplatSelectionState :=
  match s.states[idx]? with
  | none => s
  | some st =>
    if st &&& SELECTED ≠ 0 then
      { s with states := s.states.set idx (st &&& NOT_SELECTED),
               num_selected := s.num_selected - 1 }
    else s

/-- `SplatSelectionState::deselect`: clear the SELECTED bit for each
index, then set `dirty` unconditionally. -/
def deselect (s : SplatSelectionState) (indices : List Nat) : SplatSelectionState :=
  { indices.foldl deselectStep s with dirty := true }

/-- `SplatSelectionState::set_selection`: clear every SELECTED bit and
reset the cached count, then `select` the new indices. -/
def set_selection (s : SplatSelectionState) (indices : List Nat) : SplatSelectionState :=
  select { s with states := s.states.map (fun st => st &&& NOT_SELECTED),
                  num_selected := 0 } indices

/-- `SplatSelectionState::select_all`: select every splat that is neither
locked nor deleted; the cached count is rebuilt from scratch. -/
def select_all (s : SplatSelectionState) : SplatSelectionState :=
  { s with
    states := s.states.map (fun st =>
      if st &&& (LOCKED ||| DELETED) = 0 then st ||| SELECTED else st),
    num_selected := s.states.countP (fun st => st &&& (LOCKED ||| DELETED) == 0),
    dirty := true }

/-- `SplatSelectionState::deselect_all`. -/
def deselect_all (s : SplatSelectionState) : SplatSelectionState :=
  { s with states := s.states.map (fun st => st &&& NOT_SELECTED),
           num_selected := 0, dirty := true }

/-- `SplatSelectionState::invert_selection`: toggle SELECTED on every
splat that is neither locked nor deleted; the count is rebuilt counting
the splats that end up selected among the toggled ones. -/
def invert_selection (s : SplatSelectionState) : SplatSelectionState :=
  { s with
    states := s.states.map (fun st =>
      if st &&& (LOCKED ||| DELETED) = 0 then st ^^^ SELECTED else st),
    num_selected := s.states.countP (fun st =>
      st &&& (LOCKED ||| DELETED) == 0 && (st ^^^ SELECTED) &&& SELECTED != 0),
    dirty := true }

/-- `SplatSelectionState::delete_selected`: every selected splat gets the
DELETED bit and loses the SELECTED bit; `num_deleted` is incremented per
transition. -/
def delete_selected (s : SplatSelectionState) : SplatSelectionState :=
  { s with
    states := s.states.map (fun st =>
      if st &&& SELECTED ≠ 0 then (st ||| DELETED) &&& NOT_SELECTED else st),
    num_deleted := s.num_deleted + s.states.countP (fun st => st &&& SELECTED != 0),
    num_selected := 0,
    dirty := true }

/-- `SplatSelectionState::undelete_all`. -/
def undelete_all (s : SplatSelectionState) : SplatSelectionState :=
  { s with states := s.states.map (fun st => st &&& NOT_DELETED),
           num_deleted := 0, dirty := true }

/-- `SplatSelectionState::lock_selected`: every selected splat gets the
LOCKED bit and loses the SELECTED bit. -/
def lock_selected (s : SplatSelectionState) : SplatSelectionState :=
  { s with
    states := s.states.map (fun st =>
      if st &&& SELECTED ≠ 0 then (st ||| LOCKED) &&& NOT_SELECTED else st),
    num_locked := s.num_locked + s.states.countP (fun st => st &&& SELECTED != 0),
    num_selected := 0,
    dirty := true }

/-- `SplatSelectionState::unlock_all`. -/
def unlock_all (s : SplatSelectionState) : SplatSelectionState :=
  { s with states := s.states.map (fun st => st &&& NOT_LOCKED),
           num_locked := 0, dirty := true }

/-- `SplatSelectionState::recount`: recompute the three cached counts by
scanning the `states` array. -/
def recount (s : SplatSelectionState) : SplatSelectionState :=
  { s with
    num_selected := s.states.countP (fun st => st &&& SELECTED != 0),
    num_locked := s.states.countP (fun st => st &&& LOCKED != 0),
    num_deleted := s.states.countP (fun st => st &&& DELETED != 0) }

end SplatSelectionState

/-! ## Bit-arithmetic helpers for the u8 state flags -/

lemma and_and_const (st a b : Nat) : st &&& a &&& b = st &&& (a &&& b) :=
  Nat.and_assoc st a b

lemma or_selected_selected (st : Nat) : (st ||| 1) &&& 1 ≠ 0 := by
  rw [Nat.and_one_is_mod]
  have h1 : (st ||| 1) % 2 = 1 := Nat.or_mod_two_eq_one.mpr (Or.inr rfl)
  omega

lemma or_selected_locked (st : Nat) : (st ||| 1) &&& 2 = st &&& 2 := by
  rw [Nat.and_distrib_right, show (1 : Nat) &&& 2 = 0 from by decide, Nat.or_zero]

lemma or_selected_deleted (st : Nat) : (st ||| 1) &&& 4 = st &&& 4 := by
  rw [Nat.and_distrib_right, show (1 : Nat) &&& 4 = 0 from by decide, Nat.or_zero]

lemma xor_selected_locked (st : Nat) : (st ^^^ 1) &&& 2 = st &&& 2 := by
  rw [Nat.and_xor_distrib_right, show (1 : Nat) &&& 2 = 0 from by decide, Nat.xor_zero]

lemma xor_selected_deleted (st : Nat) : (st ^^^ 1) &&& 4 = st &&& 4 := by
  rw [Nat.and_xor_distrib_right, show (1 : Nat) &&& 4 = 0 from by decide, Nat.xor_zero]

lemma free_locked (st : Nat) (h : st &&& 6 = 0) : st &&& 2 = 0 := by
  have h2 : st &&& 6 &&& 2 = 0 &&& 2 := by rw [h]
  rwa [and_and_const, show (6 : Nat) &&& 2 = 2 from by decide,
    show (0 : Nat) &&& 2 = 0 from by decide] at h2

lemma free_deleted (st : Nat) (h : st &&& 6 = 0) : st &&& 4 = 0 := by
  have h2 : st &&& 6 &&& 4 = 0 &&& 4 := by rw [h]
  rwa [and_and_const, show (6 : Nat) &&& 4 = 4 from by decide,
    show (0 : Nat) &&& 4 = 0 from by decide] at h2

lemma mask_not_selected_selected (st : Nat) : st &&& 254 &&& 1 = 0 := by
  rw [and_and_const, show (254 : Nat) &&& 1 = 0 from by decide, Nat.and_zero]

lemma mask_not_selected_locked (st : Nat) : st &&& 254 &&& 2 = st &&& 2 := by
  rw [and_and_const, show (254 : Nat) &&& 2 = 2 from by decide]

lemma mask_not_selected_deleted (st : Nat) : st &&& 254 &&& 4 = st &&& 4 := by
  rw [and_and_const, show (254 : Nat) &&& 4 = 4 from by decide]

lemma mask_not_locked_selected (st : Nat) : st &&& 253 &&& 1 = st &&& 1 := by
  rw [and_and_const, show (253 : Nat) &&& 1 = 1 from by decide]

lemma mask_not_locked_locked (st : Nat) : st &&& 253 &&& 2 = 0 := by
  rw [and_and_const, show (253 : Nat) &&& 2 = 0 from by decide, Nat.and_zero]

lemma mask_not_locked_deleted (st : Nat) : st &&& 253 &&& 4 = st &&& 4 := by
  rw [and_and_const, show (253 : Nat) &&& 4 = 4 from by decide]

lemma mask_not_deleted_selected (st : Nat) : st &&& 251 &&& 1 = st &&& 1 := by
  rw [and_and_const, show (251 : Nat) &&& 1 = 1 from by decide]

lemma mask_not_deleted_locked (st : Nat) : st &&& 251 &&& 2 = st &&& 2 := by
  rw [and_and_const, show (251 : Nat) &&& 2 = 2 from by decide]

lemma mask_not_deleted_deleted (st : Nat) : st &&& 251 &&& 4 = 0 := by
  rw [and_and_const, show (251 : Nat) &&& 4 = 0 from by decide, Nat.and_zero]

lemma or_deleted_selected (st : Nat) : (st ||| 4) &&& 1 = st &&& 1 := by
  rw [Nat.and_distrib_right, show (4 : Nat) &&& 1 = 0 from by decide, Nat.or_zero]

lemma or_locked_selected (st : Nat) : (st ||| 2) &&& 1 = st &&& 1 := by
  rw [Nat.and_distrib_right, show (2 : Nat) &&& 1 = 0 from by decide, Nat.or_zero]

/-! ## C2: the selected-implies-free invariant -/

/-- Every splat whose state has the SELECTED bit set has neither the
LOCKED bit nor the DELETED bit set. -/
def SelInvariant (s : SplatSelectionState) : Prop :=
  ∀ st ∈ s.states, st &&& SELECTED ≠ 0 → st &&& LOCKED = 0 ∧ st &&& DELETED = 0

instance (s : SplatSelectionState) : Decidable (SelInvariant s) := by
  unfold SelInvariant; infer_instance

lemma lockedDeleted_eq_six : LOCKED ||| DELETED = 6 := by decide

namespace SplatSelectionState

lemma selInv_deselectStep (s : SplatSelectionState) (idx : Nat) (h : SelInvariant s) :
    SelInvariant (s.deselectStep idx) := by
  cases hg : s.states[idx]? with
  | none => simpa only [deselectStep, hg] using h
  | some st =>
    by_cases hsel : st &&& SELECTED ≠ 0
    · simp only [deselectStep, hg, if_pos hsel]
      intro x hx hxs
      rcases List.mem_or_eq_of_mem_set hx with hmem | rfl
      · exact h x hmem hxs
      · exact absurd hxs (by simp [SELECTED, NOT_SELECTED, mask_not_selected_selected])
    · simpa only [deselectStep, hg, if_neg hsel] using h

lemma selInv_deselect (s : SplatSelectionState) (l : List Nat) (h : SelInvariant s) :
    SelInvariant (s.deselect l) := by
  show SelInvariant { l.foldl deselectStep s with dirty := true }
  have main : ∀ (l : List Nat) (s : SplatSelectionState), SelInvariant s →
      SelInvariant (l.foldl deselectStep s) := by
    intro l
    induction l with
    | nil => intro s hs; exact hs
    | cons a t ih => intro s hs; exact ih _ (selInv_deselectStep s a hs)
  exact main l s h

lemma selInv_select_all (s : SplatSelectionState) (h : SelInvariant s) :
    SelInvariant s.select_all := by
  intro x hx hxs
  obtain ⟨st, hmem, rfl⟩ := List.mem_map.mp hx
  by_cases hfree : st &&& (LOCKED ||| DELETED) = 0
  · rw [if_pos hfree]
    rw [lockedDeleted_eq_six] at hfree
    constructor
    · simpa [SELECTED, LOCKED, or_selected_locked] using free_locked st hfree
    · simpa [SELECTED, DELETED, or_selected_deleted] using free_deleted st hfree
  · rw [if_neg hfree]
    rw [if_neg hfree] at hxs
    exact h st hmem hxs

lemma selInv_deselect_all (s : SplatSelectionState) :
    SelInvariant s.deselect_all := by
  intro x hx hxs
  obtain ⟨st, hmem, rfl⟩ := List.mem_map.mp hx
  exact absurd hxs (by simp [SELECTED, NOT_SELECTED, mask_not_selected_selected])

lemma selInv_invert_selection (s : SplatSelectionState) (h : SelInvariant s) :
    SelInvariant s.invert_selection := by
  intro x hx hxs
  obtain ⟨st, hmem, rfl⟩ := List.mem_map.mp hx
  by_cases hfree : st &&& (LOCKED ||| DELETED) = 0
  · rw [if_pos hfree]
    rw [lockedDeleted_eq_six] at hfree
    constructor
    · simpa [SELECTED, LOCKED, xor_selected_locked] using free_locked st hfree
    · simpa [SELECTED, DELETED, xor_selected_deleted] using free_deleted st hfree
  · rw [if_neg hfree]
    rw [if_neg hfree] at hxs
    exact h st hmem hxs

lemma selInv_delete_selected (s : SplatSelectionState) :
    SelInvariant s.delete_selected := by
  intro x hx hxs
  obtain ⟨st, hmem, rfl⟩ := List.mem_map.mp hx
  by_cases hsel : st &&& SELECTED ≠ 0
  · rw [if_pos hsel] at hxs
    exact absurd hxs (by simp [SELECTED, DELETED, NOT_SELECTED, mask_not_selected_selected])
  · rw [if_neg hsel] at hxs
    exact absurd hxs hsel

lemma selInv_undelete_all (s : SplatSelectionState) (h : SelInvariant s) :
    SelInvariant s.undelete_all := by
  intro x hx hxs
  obtain ⟨st, hmem, rfl⟩ := List.mem_map.mp hx
  have hsel : st &&& SELECTED ≠ 0 := by
    simpa [SELECTED, NOT_DELETED, mask_not_deleted_selected] using hxs
  obtain ⟨hl, hd⟩ := h st hmem hsel
  constructor
  · simpa [LOCKED, NOT_DELETED, mask_not_deleted_locked] using hl
  · simp [DELETED, NOT_DELETED, mask_not_deleted_deleted]

lemma selInv_lock_selected (s : SplatSelectionState) :
    SelInvariant s.lock_selected := by
  intro x hx hxs
  obtain ⟨st, hmem, rfl⟩ := List.mem_map.mp hx
  by_cases hsel : st &&& SELECTED ≠ 0
  · rw [if_pos hsel] at hxs
    exact absurd hxs (by simp [SELECTED, LOCKED, NOT_SELECTED, mask_not_selected_selected])
  · rw [if_neg hsel] at hxs
    exact absurd hxs hsel

lemma selInv_unlock_all (s : SplatSelectionState) (h : SelInvariant s) :
    SelInvariant s.unlock_all := by
  intro x hx hxs
  obtain ⟨st, hmem, rfl⟩ := List.mem_map.mp hx
  have hsel : st &&& SELECTED ≠ 0 := by
    simpa [SELECTED, NOT_LOCKED, mask_not_locked_selected] using hxs
  obtain ⟨hl, hd⟩ := h st hmem hsel
  constructor
  · simp [LOCKED, NOT_LOCKED, mask_not_locked_locked]
  · simpa [DELETED, NOT_LOCKED, mask_not_locked_deleted] using hd

end SplatSelectionState

/-- **C2** (counterexample). `select` does not skip locked splats: starting
from one splat that has been selected and then locked, `select [0]` sets
the SELECTED bit on the locked splat, so after that selection operation a
splat is simultaneously SELECTED and LOCKED. -/
theorem c2_select_breaks_invariant :
    ¬ SelInvariant ((((SplatSelectionState.new 1).select [0]).lock_selected).select [0]) := by
  decide

/-- **C2** (amended): after any selection operation other than `select` and
`set_selection` — that is, after `deselect`, `select_all`, `deselect_all`,
`invert_selection`, `lock_selected`, `unlock_all`, `delete_selected` and
`undelete_all` — every splat whose state has the SELECTED bit set has
neither the LOCKED bit nor the DELETED bit set, provided that held before
the operation; `select` (and hence `set_selection`) can set the SELECTED
bit on a locked or deleted splat. -/
theorem c2_selection_ops_preserve_invariant (s : SplatSelectionState) (l : List Nat)
    (h : SelInvariant s) :
    SelInvariant (s.deselect l) ∧ SelInvariant s.select_all ∧
    SelInvariant s.deselect_all ∧ SelInvariant s.invert_selection ∧
    SelInvariant s.lock_selected ∧ SelInvariant s.unlock_all ∧
    SelInvariant s.delete_selected ∧ SelInvariant s.undelete_all :=
  ⟨s.selInv_deselect l h, s.selInv_select_all h, s.selInv_deselect_all,
   s.selInv_invert_selection h, s.selInv_lock_selected, s.selInv_unlock_all h,
   s.selInv_delete_selected, s.selInv_undelete_all h⟩

/-- Witness for `c2_selection_ops_preserve_invariant` at a concrete state. -/
theorem c2_selection_ops_preserve_invariant_witness :
    SelInvariant (((SplatSelectionState.new 2).select [0]).deselect [1]) ∧
    SelInvariant ((SplatSelectionState.new 2).select [0]).select_all ∧
    SelInvariant ((SplatSelectionState.new 2).select [0]).deselect_all ∧
    SelInvariant ((SplatSelectionState.new 2).select [0]).invert_selection ∧
    SelInvariant ((SplatSelectionState.new 2).select [0]).lock_selected ∧
    SelInvariant ((SplatSelectionState.new 2).select [0]).unlock_all ∧
    SelInvariant ((SplatSelectionState.new 2).select [0]).delete_selected ∧
    SelInvariant ((SplatSelectionState.new 2).select [0]).undelete_all :=
  c2_selection_ops_preserve_invariant ((SplatSelectionState.new 2).select [0]) [1] (by decide)

/-! ## C8: cached counts agree with a recount -/

lemma countP_set_eq (p : Nat → Bool) (l : List Nat) (i st x : Nat) (h : l[i]? = some st) :
    (l.set i x).countP p + (if p st then 1 else 0) = l.countP p + (if p x then 1 else 0) := by
  induction l generalizing i with
  | nil => simp at h
  | cons a t ih =>
    cases i with
    | zero =>
      simp only [List.getElem?_cons_zero, Option.some.injEq] at h
      subst h
      simp only [List.set_cons_zero, List.countP_cons]
      split_ifs <;> omega
    | succ n =>
      simp only [List.getElem?_cons_succ] at h
      have hih := ih n h
      simp only [List.set_cons_succ, List.countP_cons]
      split_ifs at hih ⊢ <;> omega

/-- The three cached counts of a `SplatSelectionState` agree with the
counts recomputed by `recount`. -/
def CountsOk (s : SplatSelectionState) : Prop := s.recount = s

instance (s : SplatSelectionState) : Decidable (CountsOk s) := by
  unfold CountsOk; infer_instance

lemma countsOk_iff (s : SplatSelectionState) : CountsOk s ↔
    s.num_selected = s.states.countP (fun st => st &&& SELECTED != 0) ∧
    s.num_locked = s.states.countP (fun st => st &&& LOCKED != 0) ∧
    s.num_deleted = s.states.countP (fun st => st &&& DELETED != 0) := by
  cases s
  simp only [CountsOk, SplatSelectionState.recount, SplatSelectionState.mk.injEq, true_and,
    and_true, eq_comm]

namespace SplatSelectionState

lemma countsOk_selectStep (s : SplatSelectionState) (idx : Nat) (h : CountsOk s) :
    CountsOk (s.selectStep idx) := by
  rw [countsOk_iff] at h
  cases hg : s.states[idx]? with
  | none => rw [countsOk_iff]; simpa only [selectStep, hg] using h
  | some st =>
    by_cases hsel : st &&& SELECTED = 0
    · rw [countsOk_iff]
      simp only [selectStep, hg, if_pos hsel]
      refine ⟨?_, ?_, ?_⟩
      · have hc := countP_set_eq (fun st => st &&& SELECTED != 0) s.states idx st
          (st ||| SELECTED) hg
        have hst : (st &&& SELECTED != 0) = false := by simp [hsel]
        have hx : ((st ||| SELECTED) &&& SELECTED != 0) = true := by
          simp [SELECTED, or_selected_selected]
        simp only [hst, hx] at hc
        simp at hc
        omega
      · have hc := countP_set_eq (fun st => st &&& LOCKED != 0) s.states idx st
          (st ||| SELECTED) hg
        have hx : (st ||| SELECTED) &&& LOCKED = st &&& LOCKED := by
          simp [SELECTED, LOCKED, or_selected_locked]
        simp only [hx] at hc
        have := h.2.1
        split_ifs at hc <;> omega
      · have hc := countP_set_eq (fun st => st &&& DELETED != 0) s.states idx st
          (st ||| SELECTED) hg
        have hx : (st ||| SELECTED) &&& DELETED = st &&& DELETED := by
          simp [SELECTED, DELETED, or_selected_deleted]
        simp only [hx] at hc
        have := h.2.2
        split_ifs at hc <;> omega
    · rw [countsOk_iff]; simpa only [selectStep, hg, if_neg hsel] using h

lemma countsOk_deselectStep (s : SplatSelectionState) (idx : Nat) (h : CountsOk s) :
    CountsOk (s.deselectStep idx) := by
  rw [countsOk_iff] at h
  cases hg : s.states[idx]? with
  | none => rw [countsOk_iff]; simpa only [deselectStep, hg] using h
  | some st =>
    by_cases hsel : st &&& SELECTED ≠ 0
    · rw [countsOk_iff]
      simp only [deselectStep, hg, if_pos hsel]
      refine ⟨?_, ?_, ?_⟩
      · have hc := countP_set_eq (fun st => st &&& SELECTED != 0) s.states idx st
          (st &&& NOT_SELECTED) hg
        have hst : (st &&& SELECTED != 0) = true := by simp [hsel]
        have hx : (st &&& NOT_SELECTED &&& SELECTED != 0) = false := by
          simp [SELECTED, NOT_SELECTED, mask_not_selected_selected]
        simp only [hst, hx] at hc
        simp at hc
        omega
      · have hc := countP_set_eq (fun st => st &&& LOCKED != 0) s.states idx st
          (st &&& NOT_SELECTED) hg
        have hx : st &&& NOT_SELECTED &&& LOCKED = st &&& LOCKED := by
          simp [LOCKED, NOT_SELECTED, mask_not_selected_locked]
        simp only [hx] at hc
        have := h.2.1
        split_ifs at hc <;> omega
      · have hc := countP_set_eq (fun st => st &&& DELETED != 0) s.states idx st
          (st &&& NOT_SELECTED) hg
        have hx : st &&& NOT_SELECTED &&& DELETED = st &&& DELETED := by
          simp [DELETED, NOT_SELECTED, mask_not_selected_deleted]
        simp only [hx] at hc
        have := h.2.2
        split_ifs at hc <;> omega
    · rw [countsOk_iff]; simpa only [deselectStep, hg, if_neg hsel] using h

lemma countsOk_dirty (s : SplatSelectionState) (h : CountsOk s) :
    CountsOk { s with dirty := true } := by
  rw [countsOk_iff] at h ⊢
  exact h

lemma countsOk_select (s : SplatSelectionState) (l : List Nat) (h : CountsOk s) :
    CountsOk (s.select l) := by
  refine countsOk_dirty _ ?_
  have main : ∀ (l : List Nat) (s : SplatSelectionState), CountsOk s →
      CountsOk (l.foldl selectStep s) := by
    intro l
    induction l with
    | nil => intro s hs; exact hs
    | cons a t ih => intro s hs; exact ih _ (countsOk_selectStep s a hs)
  exact main l s h

lemma countsOk_deselect (s : SplatSelectionState) (l : List Nat) (h : CountsOk s) :
    CountsOk (s.deselect l) := by
  refine countsOk_dirty _ ?_
  have main : ∀ (l : List Nat) (s : SplatSelectionState), CountsOk s →
      CountsOk (l.foldl deselectStep s) := by
    intro l
    induction l with
    | nil => intro s hs; exact hs
    | cons a t ih => intro s hs; exact ih _ (countsOk_deselectStep s a hs)
  exact main l s h

lemma countsOk_set_selection (s : SplatSelectionState) (l : List Nat) (h : CountsOk s) :
    CountsOk (s.set_selection l) := by
  rw [countsOk_iff] at h
  refine countsOk_select _ l ?_
  rw [countsOk_iff]
  have hsel : List.countP (fun st => st &&& SELECTED != 0)
      (s.states.map (fun st => st &&& NOT_SELECTED)) = 0 := by
    rw [List.countP_map, List.countP_eq_zero]
    intro a _
    simp [SELECTED, NOT_SELECTED, mask_not_selected_selected, Function.comp]
  have hlock : List.countP (fun st => st &&& LOCKED != 0)
      (s.states.map (fun st => st &&& NOT_SELECTED)) =
      List.countP (fun st => st &&& LOCKED != 0) s.states := by
    rw [List.countP_map]
    refine List.countP_congr ?_
    intro a _
    simp only [Function.comp_apply]
    constructor
    · intro ha
      simpa [LOCKED, NOT_SELECTED, mask_not_selected_locked] using ha
    · intro ha
      simpa [LOCKED, NOT_SELECTED, mask_not_selected_locked] using ha
  have hdel : List.countP (fun st => st &&& DELETED != 0)
      (s.states.map (fun st => st &&& NOT_SELECTED)) =
      List.countP (fun st => st &&& DELETED != 0) s.states := by
    rw [List.countP_map]
    refine List.countP_congr ?_
    intro a _
    simp only [Function.comp_apply]
    constructor
    · intro ha
      simpa [DELETED, NOT_SELECTED, mask_not_selected_deleted] using ha
    · intro ha
      simpa [DELETED, NOT_SELECTED, mask_not_selected_deleted] using ha
  exact ⟨hsel.symm, h.2.1.trans hlock.symm, h.2.2.trans hdel.symm⟩

end SplatSelectionState

/-- **C8**: after any call to `select`, `deselect` or `set_selection`, on
arbitrary index lists (repeated, already-selected and out-of-range indices
included), the cached counts `num_selected`, `num_locked` and `num_deleted`
still agree with the counts that `recount` recomputes by scanning the state
array, provided they agreed before the call. -/
theorem c8_cached_counts_consistent (s : SplatSelectionState) (l : List Nat)
    (h : s.recount = s) :
    (s.select l).recount = s.select l ∧
    (s.deselect l).recount = s.deselect l ∧
    (s.set_selection l).recount = s.set_selection l :=
  ⟨s.countsOk_select l h, s.countsOk_deselect l h, s.countsOk_set_selection l h⟩

/-- Witness for `c8_cached_counts_consistent` at a concrete state and a
repeating, partly out-of-range index list. -/
theorem c8_cached_counts_consistent_witness :
    ((((SplatSelectionState.new 3).select [0]).lock_selected).select [0, 0, 1, 7]).recount =
      (((SplatSelectionState.new 3).select [0]).lock_selected).select [0, 0, 1, 7] ∧
    ((((SplatSelectionState.new 3).select [0]).lock_selected).deselect [0, 0, 1, 7]).recount =
      (((SplatSelectionState.new 3).select [0]).lock_selected).deselect [0, 0, 1, 7] ∧
    ((((SplatSelectionState.new 3).select [0]).lock_selected).set_selection [0, 0, 1, 7]).recount =
      (((SplatSelectionState.new 3).select [0]).lock_selected).set_selection [0, 0, 1, 7] :=
  c8_cached_counts_consistent (((SplatSelectionState.new 3).select [0]).lock_selected)
    [0, 0, 1, 7] (by decide)

/-! ## C10: out-of-range indices in select/deselect -/

namespace SplatSelectionState

lemma selectStep_oob (s : SplatSelectionState) (idx : Nat) (h : s.states.length ≤ idx) :
    s.selectStep idx = s := by
  simp [selectStep, List.getElem?_eq_none h]

lemma deselectStep_oob (s : SplatSelectionState) (idx : Nat) (h : s.states.length ≤ idx) :
    s.deselectStep idx = s := by
  simp [deselectStep, List.getElem?_eq_none h]

lemma foldl_selectStep_oob (s : SplatSelectionState) (l : List Nat)
    (h : ∀ i ∈ l, s.states.length ≤ i) : l.foldl selectStep s = s := by
  induction l with
  | nil => rfl
  | cons a t ih =>
    rw [List.foldl_cons, selectStep_oob s a (h a (List.mem_cons_self a t))]
    exact ih (fun i hi => h i (List.mem_cons_of_mem a hi))

lemma foldl_deselectStep_oob (s : SplatSelectionState) (l : List Nat)
    (h : ∀ i ∈ l, s.states.length ≤ i) : l.foldl deselectStep s = s := by
  induction l with
  | nil => rfl
  | cons a t ih =>
    rw [List.foldl_cons, deselectStep_oob s a (h a (List.mem_cons_self a t))]
    exact ih (fun i hi => h i (List.mem_cons_of_mem a hi))

end SplatSelectionState

/-- **C10**: an index `idx ≥ N` is silently ignored by `select` and
`deselect` (the loop step leaves the state untouched, since `get_mut`
returns `None`, so no out-of-bounds access can occur), and a call whose
index list consists of such indices changes nothing except setting the
`dirty` flag: every state entry and all cached counts are unchanged. -/
theorem c10_out_of_range_indices_ignored (s : SplatSelectionState) (idx : Nat)
    (h : s.states.length ≤ idx) (l : List Nat) (hl : ∀ i ∈ l, s.states.length ≤ i) :
    s.selectStep idx = s ∧ s.deselectStep idx = s ∧
    s.select l = { s with dirty := true } ∧ s.deselect l = { s with dirty := true } := by
  refine ⟨s.selectStep_oob idx h, s.deselectStep_oob idx h, ?_, ?_⟩
  · show { l.foldl SplatSelectionState.selectStep s with dirty := true } = _
    rw [s.foldl_selectStep_oob l hl]
  · show { l.foldl SplatSelectionState.deselectStep s with dirty := true } = _
    rw [s.foldl_deselectStep_oob l hl]

/-- Witness for `c10_out_of_range_indices_ignored`: two splats, all
indices out of range. -/
theorem c10_out_of_range_indices_ignored_witness :
    (SplatSelectionState.new 2).selectStep 5 = SplatSelectionState.new 2 ∧
    (SplatSelectionState.new 2).deselectStep 5 = SplatSelectionState.new 2 ∧
    (SplatSelectionState.new 2).select [5, 9] =
      { SplatSelectionState.new 2 with dirty := true } ∧
    (SplatSelectionState.new 2).deselect [5, 9] =
      { SplatSelectionState.new 2 with dirty := true } :=
  c10_out_of_range_indices_ignored (SplatSelectionState.new 2) 5 (by decide) [5, 9] (by decide)

/-! ## C7: applying GPU pick results (`gpu_picker.rs`, `apply_picker_results`) -/

/-- `SelectionOp` of the picker request: `Set` replaces, `Add` unions,
`Remove` subtracts. -/
inductive SelectionOp where
  | set
  | add
  | remove
deriving Repr, DecidableEq

/-- Per-splat update of `apply_picker_results` for one (state, result)
pair: locked or deleted splats are left untouched; otherwise `Set` writes
the picked bit, `Add` sets it for picked splats, `Remove` clears it for
picked splats. -/
def applyPickOne (op : SelectionOp) (st result : Nat) : Nat :=
  match op with
  | .set =>
    if st &&& LOCKED ≠ 0 ∨ st &&& DELETED ≠ 0 then st
    else if result ≠ 0 then st ||| SELECTED else st &&& NOT_SELECTED
  | .add =>
    if result ≠ 0 then
      if st &&& LOCKED ≠ 0 ∨ st &&& DELETED ≠ 0 then st else st ||| SELECTED
    else st
  | .remove =>
    if result ≠ 0 then
      if st &&& LOCKED ≠ 0 ∨ st &&& DELETED ≠ 0 then st else st &&& NOT_SELECTED
    else st

/-- `apply_picker_results` on one splat store: if the result buffer length
does not match the state array the entity is skipped; otherwise every
state entry is updated according to the op, the counts are recomputed
(`recount`) and `dirty` is set. -/
def apply_picker_results (op : SelectionOp) (results : List Nat)
    (s : SplatSelectionState) : SplatSelectionState :=
  if s.states.length ≠ results.length then s
  else
    { SplatSelectionState.recount
        { s with states := List.zipWith (applyPickOne op) s.states results }
      with dirty := true }

/-- State entry of splat `i` (0 when out of range, which the theorems
exclude). -/
def stateAt (s : SplatSelectionState) (i : Nat) : Nat := s.states.getD i 0

lemma stateAt_apply (op : SelectionOp) (s : SplatSelectionState) (results : List Nat)
    (hlen : s.states.length = results.length) (i : Nat) (hi : i < s.states.length) :
    stateAt (apply_picker_results op results s) i =
      applyPickOne op (stateAt s i) (results.getD i 0) := by
  unfold apply_picker_results
  rw [if_neg (by omega)]
  show (List.zipWith (applyPickOne op) s.states results).getD i 0 = _
  have h1 : s.states[i]? = some s.states[i] := List.getElem?_eq_getElem hi
  have hi2 : i < results.length := by omega
  have h2 : results[i]? = some (results.get ⟨i, hi2⟩) := List.getElem?_eq_getElem hi2
  rw [List.getD_eq_getElem?_getD, List.getElem?_zipWith', h1, h2]
  simp [stateAt, List.getD_eq_getElem?_getD, h1, h2]

/-- **C7**: applying a GPU pick result with matching length: a splat whose
state has the LOCKED or the DELETED bit set is never mutated by any of the
three operations; on the remaining splats, `Set` makes the SELECTED bit
equal to membership in the picked set, `Add` unions the picked set into
the selection, and `Remove` subtracts it. -/
theorem c7_apply_picker_semantics (s : SplatSelectionState) (results : List Nat)
    (hlen : s.states.length = results.length) (i : Nat) (hi : i < s.states.length) :
    ((stateAt s i &&& LOCKED ≠ 0 ∨ stateAt s i &&& DELETED ≠ 0) →
      stateAt (apply_picker_results SelectionOp.set results s) i = stateAt s i ∧
      stateAt (apply_picker_results SelectionOp.add results s) i = stateAt s i ∧
      stateAt (apply_picker_results SelectionOp.remove results s) i = stateAt s i) ∧
    (stateAt s i &&& LOCKED = 0 → stateAt s i &&& DELETED = 0 →
      ((stateAt (apply_picker_results SelectionOp.set results s) i &&& SELECTED ≠ 0 ↔
          results.getD i 0 ≠ 0) ∧
       (stateAt (apply_picker_results SelectionOp.add results s) i &&& SELECTED ≠ 0 ↔
          (stateAt s i &&& SELECTED ≠ 0 ∨ results.getD i 0 ≠ 0)) ∧
       (stateAt (apply_picker_results SelectionOp.remove results s) i &&& SELECTED ≠ 0 ↔
          (stateAt s i &&& SELECTED ≠ 0 ∧ results.getD i 0 = 0)))) := by
  rw [stateAt_apply SelectionOp.set s results hlen i hi,
    stateAt_apply SelectionOp.add s results hlen i hi,
    stateAt_apply SelectionOp.remove s results hlen i hi]
  constructor
  · intro hflag
    unfold applyPickOne
    refine ⟨if_pos hflag, ?_, ?_⟩ <;> split_ifs <;> rfl
  · intro hlock hdel
    have hflag : ¬ (stateAt s i &&& LOCKED ≠ 0 ∨ stateAt s i &&& DELETED ≠ 0) := by
      tauto
    by_cases hr : results.getD i 0 ≠ 0
    · unfold applyPickOne
      rw [if_neg hflag, if_pos hr, if_pos hr, if_pos hr, if_neg hflag, if_neg hflag]
      refine ⟨?_, ?_, ?_⟩
      · simp only [SELECTED]
        exact ⟨fun _ => hr, fun _ => or_selected_selected (stateAt s i)⟩
      · simp only [SELECTED]
        exact ⟨fun _ => Or.inr hr, fun _ => or_selected_selected (stateAt s i)⟩
      · simp only [SELECTED, NOT_SELECTED]
        rw [mask_not_selected_selected]
        tauto
    · unfold applyPickOne
      rw [if_neg hflag, if_neg hr, if_neg hr, if_neg hr]
      refine ⟨?_, ?_, ?_⟩
      · simp only [SELECTED, NOT_SELECTED]
        rw [mask_not_selected_selected]
        tauto
      · tauto
      · tauto

/-- Witness for `c7_apply_picker_semantics`: two splats, the first locked,
both picked. -/
theorem c7_apply_picker_semantics_witness :
    ((stateAt ⟨[2, 0], 0, 1, 0, false⟩ 0 &&& LOCKED ≠ 0 ∨
        stateAt ⟨[2, 0], 0, 1, 0, false⟩ 0 &&& DELETED ≠ 0) →
      stateAt (apply_picker_results SelectionOp.set [1, 1] ⟨[2, 0], 0, 1, 0, false⟩) 0 =
        stateAt ⟨[2, 0], 0, 1, 0, false⟩ 0 ∧
      stateAt (apply_picker_results SelectionOp.add [1, 1] ⟨[2, 0], 0, 1, 0, false⟩) 0 =
        stateAt ⟨[2, 0], 0, 1, 0, false⟩ 0 ∧
      stateAt (apply_picker_results SelectionOp.remove [1, 1] ⟨[2, 0], 0, 1, 0, false⟩) 0 =
        stateAt ⟨[2, 0], 0, 1, 0, false⟩ 0) ∧
    (stateAt ⟨[2, 0], 0, 1, 0, false⟩ 0 &&& LOCKED = 0 →
     stateAt ⟨[2, 0], 0, 1, 0, false⟩ 0 &&& DELETED = 0 →
      ((stateAt (apply_picker_results SelectionOp.set [1, 1] ⟨[2, 0], 0, 1, 0, false⟩) 0 &&&
          SELECTED ≠ 0 ↔ List.getD [1, 1] 0 0 ≠ 0) ∧
       (stateAt (apply_picker_results SelectionOp.add [1, 1] ⟨[2, 0], 0, 1, 0, false⟩) 0 &&&
          SELECTED ≠ 0 ↔
          (stateAt ⟨[2, 0], 0, 1, 0, false⟩ 0 &&& SELECTED ≠ 0 ∨ List.getD [1, 1] 0 0 ≠ 0)) ∧
       (stateAt (apply_picker_results SelectionOp.remove [1, 1] ⟨[2, 0], 0, 1, 0, false⟩) 0 &&&
          SELECTED ≠ 0 ↔
          (stateAt ⟨[2, 0], 0, 1, 0, false⟩ 0 &&& SELECTED ≠ 0 ∧ List.getD [1, 1] 0 0 = 0)))) :=
  c7_apply_picker_semantics ⟨[2, 0], 0, 1, 0, false⟩ [1, 1] (by decide) 0 (by decide)

/-! ## C6 and C9: temporal coherence (`temporal_coherence.rs`) -/

/-- `TemporalCoherenceConfig`, thresholds as exact rationals. -/
structure TemporalCoherenceConfig where
  enabled : Bool
  position_threshold : ℚ
  direction_threshold : ℚ
  max_skip_frames : Nat
  force_resort_interval : Nat
deriving Repr, DecidableEq

/-- `TemporalCoherenceCache` over an abstract camera sample type `α`
(the position/forward/up triple is bundled); camera geometry enters the
decisions only through the three scalar deltas `(pos_delta, dir_dot,
up_dot)` computed by the `delta` parameter of the decision functions. -/
structure TemporalCoherenceCache (α : Type) where
  last_camera : α
  sorting_skipped : Bool
  skip_count : Nat
  frame_count : Nat
  data_updated_this_frame : Bool
  render_skip_count : Nat
deriving Repr, DecidableEq

/-- `should_skip_render` (`temporal_coherence.rs:279-317`): never on the
first frame, never when disabled or when data updated, never once the
render-skip streak reaches `max_skip_frames * 2` (u32 product), else true
exactly when the camera is static under the strict threshold
comparisons. -/
def should_skip_render {α : Type} (delta : α → α → ℚ × ℚ × ℚ)
    (cache : TemporalCoherenceCache α) (config : TemporalCoherenceConfig)
    (camera : α) : Bool :=
  if cache.frame_count = 0 then false
  else if !config.enabled then false
  else if cache.data_updated_this_frame then false
  else if config.max_skip_frames * 2 % 2 ^ 32 ≤ cache.render_skip_count then false
  else
    let d := delta cache.last_camera camera
    decide (d.1 < config.position_threshold) &&
      decide (config.direction_threshold < d.2.1) &&
      decide (config.direction_threshold < d.2.2)

/-- `should_skip_sorting` (`temporal_coherence.rs:320-402`): returns the
updated cache and the skip decision. The frame counter is a u64. -/
def should_skip_sorting {α : Type} (delta : α → α → ℚ × ℚ × ℚ)
    (cache : TemporalCoherenceCache α) (config : TemporalCoherenceConfig)
    (camera : α) : TemporalCoherenceCache α × Bool :=
  if cache.frame_count = 0 then
    ({ cache with last_camera := camera, frame_count := 1, skip_count := 0,
                  sorting_skipped := false }, false)
  else
    let cache := { cache with frame_count := (cache.frame_count + 1) % 2 ^ 64 }
    if !config.enabled then
      ({ cache with sorting_skipped := false, skip_count := 0 }, false)
    else if cache.data_updated_this_frame then
      ({ cache with last_camera := camera, sorting_skipped := false,
                    skip_count := 0 }, false)
    else if 0 < config.force_resort_interval ∧
        cache.frame_count % config.force_resort_interval = 0 then
      ({ cache with last_camera := camera, sorting_skipped := false,
                    skip_count := 0 }, false)
    else if config.max_skip_frames ≤ cache.skip_count then
      ({ cache with last_camera := camera, sorting_skipped := false,
                    skip_count := 0 }, false)
    else
      let d := delta cache.last_camera camera
      if config.position_threshold < d.1 ∨ d.2.1 < config.direction_threshold ∨
          d.2.2 < config.direction_threshold then
        ({ cache with last_camera := camera, sorting_skipped := false,
                      skip_count := 0 }, false)
      else
        ({ cache with sorting_skipped := true,
                      skip_count := cache.skip_count + 1 }, true)

/-- The render node's per-frame skip-sorting flag
(`gaussian_point_cloud.rs:2957`). -/
def skip_sorting_flag {α : Type} (cache : TemporalCoherenceCache α) : Bool :=
  !cache.data_updated_this_frame && cache.sorting_skipped

/-- `GaussianSplatRenderCache::can_use`: the cache is valid and its
texture and view exist. -/
structure RenderCacheState where
  valid : Bool
  has_texture : Bool
  has_view : Bool
deriving Repr, DecidableEq

def RenderCacheState.can_use (rc : RenderCacheState) : Bool :=
  rc.valid && rc.has_texture && rc.has_view

/-- The per-frame skip-render decision of the render node
(`gaussian_point_cloud.rs:2936-2974`): every rendered entity is in
training mode, the pre-computed skip-sorting flag holds, and the render
cache is usable. -/
def can_use_cache {α : Type} (entities_training : List Bool)
    (cache : TemporalCoherenceCache α) (render_cache : RenderCacheState) : Bool :=
  entities_training.all (fun b => b) && skip_sorting_flag cache &&
    render_cache.can_use

/-- A frame sequence folded through `should_skip_sorting` with a fixed
configuration. -/
def run_skip_sorting {α : Type} (delta : α → α → ℚ × ℚ × ℚ)
    (config : TemporalCoherenceConfig) (cache0 : TemporalCoherenceCache α)
    (cameras : List α) : TemporalCoherenceCache α :=
  cameras.foldl (fun c cam => (should_skip_sorting delta c config cam).1) cache0

lemma skip_count_le_step {α : Type} (delta : α → α → ℚ × ℚ × ℚ)
    (config : TemporalCoherenceConfig) (c : TemporalCoherenceCache α) (cam : α) :
    (should_skip_sorting delta c config cam).1.skip_count ≤ config.max_skip_frames := by
  simp only [should_skip_sorting]
  split_ifs <;> simp <;> omega

lemma skip_count_cap_step {α : Type} (delta : α → α → ℚ × ℚ × ℚ)
    (config : TemporalCoherenceConfig) (c : TemporalCoherenceCache α) (cam : α)
    (h : config.max_skip_frames ≤ c.skip_count) :
    (should_skip_sorting delta c config cam).2 = false ∧
    (should_skip_sorting delta c config cam).1.skip_count = 0 := by
  simp only [should_skip_sorting]
  split_ifs <;> simp_all

/-- **C9**: processing any frame sequence through `should_skip_sorting`
with a fixed configuration keeps `skip_count ≤ max_skip_frames` (starting
from any cache satisfying that bound, in particular the zero-initialized
default), and on a frame entered with `skip_count` at (or beyond) the cap
the decision is `false` (a re-sort) and `skip_count` is reset to 0. -/
theorem c9_skip_count_capped {α : Type} (delta : α → α → ℚ × ℚ × ℚ)
    (config : TemporalCoherenceConfig) (cache0 c : TemporalCoherenceCache α)
    (cameras : List α) (cam : α)
    (h0 : cache0.skip_count ≤ config.max_skip_frames)
    (hc : config.max_skip_frames ≤ c.skip_count) :
    (run_skip_sorting delta config cache0 cameras).skip_count ≤ config.max_skip_frames ∧
    (should_skip_sorting delta c config cam).2 = false ∧
    (should_skip_sorting delta c config cam).1.skip_count = 0 := by
  refine ⟨?_, skip_count_cap_step delta config c cam hc⟩
  have main : ∀ (cameras : List α) (c0 : TemporalCoherenceCache α),
      c0.skip_count ≤ config.max_skip_frames →
      (run_skip_sorting delta config c0 cameras).skip_count ≤ config.max_skip_frames := by
    intro cameras
    induction cameras with
    | nil => intro c0 hch; exact hch
    | cons a t ih =>
      intro c0 hch
      exact ih _ (skip_count_le_step delta config c0 a)
  exact main cameras cache0 h0

/-- Witness for `c9_skip_count_capped`: a five-frame static-camera run
with `max_skip_frames = 2`, and a cache already at the cap. -/
theorem c9_skip_count_capped_witness :
    (run_skip_sorting (fun _ _ => ((0 : ℚ), (1 : ℚ), (1 : ℚ)))
        ⟨true, 1 / 100, 9999 / 10000, 2, 0⟩ ⟨(), false, 0, 0, false, 0⟩
        [(), (), (), (), ()]).skip_count ≤ 2 ∧
    (should_skip_sorting (fun _ _ => ((0 : ℚ), (1 : ℚ), (1 : ℚ)))
        ⟨(), true, 2, 3, false, 0⟩ ⟨true, 1 / 100, 9999 / 10000, 2, 0⟩ ()).2 = false ∧
    (should_skip_sorting (fun _ _ => ((0 : ℚ), (1 : ℚ), (1 : ℚ)))
        ⟨(), true, 2, 3, false, 0⟩ ⟨true, 1 / 100, 9999 / 10000, 2, 0⟩
        ()).1.skip_count = 0 :=
  c9_skip_count_capped (fun _ _ => ((0 : ℚ), (1 : ℚ), (1 : ℚ)))
    ⟨true, 1 / 100, 9999 / 10000, 2, 0⟩ ⟨(), false, 0, 0, false, 0⟩
    ⟨(), true, 2, 3, false, 0⟩ [(), (), (), (), ()] () (by decide) (by decide)

/-- **C6**: the per-frame skip-render decision (`can_use_cache`) is
strictly stronger than the skip-sort decision: whenever it is true, the
frame's skip-sorting flag is also true, and additionally every rendered
entity is in training mode and the cached image is valid; and
`should_skip_render` refuses once the render-skip streak has reached
`2 * max_skip_frames`. -/
theorem c6_skip_render_stronger {α : Type} (delta : α → α → ℚ × ℚ × ℚ)
    (entities : List Bool) (cache : TemporalCoherenceCache α)
    (render_cache : RenderCacheState) (config : TemporalCoherenceConfig)
    (camera : α) :
    (can_use_cache entities cache render_cache = true →
      skip_sorting_flag cache = true ∧ entities.all (fun b => b) = true ∧
      render_cache.can_use = true) ∧
    (config.max_skip_frames * 2 % 2 ^ 32 ≤ cache.render_skip_count →
      should_skip_render delta cache config camera = false) := by
  constructor
  · intro h
    simp only [can_use_cache, Bool.and_eq_true] at h
    exact ⟨h.1.2, h.1.1, h.2⟩
  · intro h
    unfold should_skip_render
    split_ifs <;> rfl

/-- Witness for `c6_skip_render_stronger`: one training entity, a valid
cache, `sorting_skipped` set, and a render-skip streak past the doubled
cap. -/
theorem c6_skip_render_stronger_witness :
    (skip_sorting_flag (⟨(), true, 0, 5, false, 700⟩ : TemporalCoherenceCache Unit) = true ∧
      List.all [true] (fun b => b) = true ∧
      RenderCacheState.can_use ⟨true, true, true⟩ = true) ∧
    should_skip_render (fun _ _ => ((0 : ℚ), (1 : ℚ), (1 : ℚ)))
      (⟨(), true, 0, 5, false, 700⟩ : TemporalCoherenceCache Unit)
      ⟨true, 1 / 100, 9999 / 10000, 300, 0⟩ () = false := by
  have h := c6_skip_render_stronger (fun _ _ => ((0 : ℚ), (1 : ℚ), (1 : ℚ))) [true]
    (⟨(), true, 0, 5, false, 700⟩ : TemporalCoherenceCache Unit) ⟨true, true, true⟩
    ⟨true, 1 / 100, 9999 / 10000, 300, 0⟩ ()
  exact ⟨h.1 (by decide), h.2 (by decide)⟩

/-! ## C3: per-axis scale written on GPU upload (`gaussian_point_cloud.rs`) -/

/-- `MAX_SCALE` (`gaussian_point_cloud.rs:1126`). -/
def MAX_SCALE : ℝ := 100

/-- Per-axis scale written by `prepare_gaussian_splat_buffers` on the
initial buffer creation (lines 1127-1136): `log_scale.exp().min(MAX_SCALE)`. -/
noncomputable def scale_on_create (log_scale : ℝ) : ℝ :=
  min (Real.exp log_scale) MAX_SCALE

/-- Per-axis scale written by `update_gaussian_splat_buffer_contents` on
in-place updates (packed and standard paths, both parallel and
sequential; lines 1690-1692, 1739-1741, 1826-1828, 1872-1874):
`log_scale.exp()` with no clamp. -/
noncomputable def scale_on_update (log_scale : ℝ) : ℝ :=
  Real.exp log_scale

lemma exp_six_gt_hundred : (100 : ℝ) < Real.exp 6 := by
  have h1 : (2.7182818283 : ℝ) < Real.exp 1 := Real.exp_one_gt_d9
  have h6 : Real.exp 6 = Real.exp 1 ^ 6 := by
    rw [show (6 : ℝ) = (6 : ℕ) * 1 by norm_num, Real.exp_nat_mul]
  have h2 : (2.7 : ℝ) ^ 6 ≤ Real.exp 1 ^ 6 := by
    apply pow_le_pow_left₀ (by norm_num)
    linarith
  have h3 : (100 : ℝ) < (2.7 : ℝ) ^ 6 := by norm_num
  rw [h6]
  linarith

/-- **C3** (counterexample): at `log_scale = 6` the in-place update path
writes `exp 6 ≈ 403.4`, not `min (exp 6) 100 = 100`: the update upload
does not clamp the per-axis scale to at most 100. -/
theorem c3_update_path_unclamped :
    scale_on_update 6 ≠ min (Real.exp 6) 100 := by
  rw [min_eq_right exp_six_gt_hundred.le]
  intro h
  rw [scale_on_update] at h
  exact absurd (h ▸ exp_six_gt_hundred) (lt_irrefl 100)

/-- **C3** (amended): on the initial buffer-creation upload the per-axis
scale written is `exp(log_scale)` clamped to at most 100; the in-place
update upload writes `exp(log_scale)` with no clamp, and the two paths
agree exactly when `exp(log_scale) ≤ 100`. -/
theorem c3_scale_clamp_amended (log_scale : ℝ) :
    scale_on_create log_scale = min (Real.exp log_scale) 100 ∧
    scale_on_create log_scale ≤ 100 ∧
    scale_on_update log_scale = Real.exp log_scale ∧
    (scale_on_update log_scale = scale_on_create log_scale ↔
      Real.exp log_scale ≤ 100) := by
  refine ⟨rfl, min_le_right _ _, rfl, ?_⟩
  show Real.exp log_scale = min (Real.exp log_scale) (100 : ℝ) ↔ _
  rw [eq_comm, min_eq_left_iff]

/-! ## C4: DC color channel written on GPU upload -/

/-- `SH_C0` (`gaussian_point_cloud.rs:1073` and `:1546`). -/
def SH_C0 : ℚ := 0.28209479

/-- DC color channel written by `prepare_gaussian_splat_buffers`
(lines 1112-1120): `(dc * SH_C0 + 0.5).max(0.0)` — the `.max(0.0)` sits
directly beneath the comment saying the color must not be clamped. -/
def dc_color_on_create (dc : ℚ) : ℚ := max (dc * SH_C0 + 1 / 2) 0

/-- DC color channel on the parallel packed update path (lines
1699-1701): `dc * SH_C0 + 0.5`, unclamped. -/
def dc_color_on_update_packed_par (dc : ℚ) : ℚ := dc * SH_C0 + 1 / 2

/-- DC color channel on the sequential packed update path (lines
1754-1756): clamped below at 0. -/
def dc_color_on_update_packed_seq (dc : ℚ) : ℚ := max (dc * SH_C0 + 1 / 2) 0

/-- DC color channel on the parallel standard update path (lines
1821-1823): clamped below at 0. -/
def dc_color_on_update_std_par (dc : ℚ) : ℚ := max (dc * SH_C0 + 1 / 2) 0

/-- DC color channel on the sequential standard update path (lines
1865-1867): `dc * SH_C0 + 0.5`, unclamped. -/
def dc_color_on_update_std_seq (dc : ℚ) : ℚ := dc * SH_C0 + 1 / 2

/-- **C4**: evaluation at the failing input `dc = -2`. The unclamped
value `dc * SH_C0 + 0.5` is negative, and the buffer-creation path (like
the sequential packed and the parallel standard update paths) writes 0
instead of that negative value — it does clamp the DC color below at 0
on the CPU upload path, contradicting both the claim and the source's
own adjacent comment. -/
theorem c4_create_path_clamps_below_zero :
    dc_color_on_update_packed_par (-2) < 0 ∧
    dc_color_on_create (-2) = 0 ∧
    dc_color_on_update_packed_seq (-2) = 0 ∧
    dc_color_on_update_std_par (-2) = 0 ∧
    dc_color_on_update_std_seq (-2) < 0 ∧
    dc_color_on_create (-2) ≠ dc_color_on_update_packed_par (-2) := by
  refine ⟨?_, ?_, ?_, ?_, ?_, ?_⟩ <;>
    norm_num [dc_color_on_create, dc_color_on_update_packed_par,
      dc_color_on_update_packed_seq, dc_color_on_update_std_par,
      dc_color_on_update_std_seq, SH_C0]

/-! ## C5: packed-SH direction encoding (`pack_11_10_11`,
`gaussian_point_cloud.rs:1306-1313` and `:1622-1628`) -/

/-- Rust `f32::clamp`. -/
def clampQ (x lo hi : ℚ) : ℚ := min (max x lo) hi

/-- `pack_11_10_11`: each channel is mapped by
`((c * 0.5 + 0.5).clamp(0.0, 1.0) * max) as u32` — the `as u32` cast
truncates toward zero, i.e. takes the floor of the non-negative clamped
product — and the three fields are packed as
`(x & 0x7FF) | ((y & 0x3FF) << 11) | ((z & 0x7FF) << 21)`. -/
def pack_11_10_11 (x y z : ℚ) : Nat :=
  let qx := (⌊clampQ (x * (1 / 2) + 1 / 2) 0 1 * 2047⌋).toNat
  let qy := (⌊clampQ (y * (1 / 2) + 1 / 2) 0 1 * 1023⌋).toNat
  let qz := (⌊clampQ (z * (1 / 2) + 1 / 2) 0 1 * 2047⌋).toNat
  qx &&& 0x7FF ||| (qy &&& 0x3FF) <<< 11 ||| (qz &&& 0x7FF) <<< 21

/-- `pack_normal_11_10_11` (`gaussian_point_cloud.rs:90-95`): same
truncation, with the clamp applied after the multiply and no masks. -/
def pack_normal_11_10_11 (x y z : ℚ) : Nat :=
  let qx := (⌊clampQ ((x + 1) * (1 / 2) * 2047) 0 2047⌋).toNat
  let qy := (⌊clampQ ((y + 1) * (1 / 2) * 1023) 0 1023⌋).toNat
  let qz := (⌊clampQ ((z + 1) * (1 / 2) * 2047) 0 2047⌋).toNat
  qz <<< 21 ||| qy <<< 11 ||| qx

lemma pack_fields (qx qy qz : Nat) (hx : qx < 2 ^ 11) (hy : qy < 2 ^ 10) (hz : qz < 2 ^ 11) :
    qx &&& 0x7FF ||| (qy &&& 0x3FF) <<< 11 ||| (qz &&& 0x7FF) <<< 21 =
      qx + qy * 2 ^ 11 + qz * 2 ^ 21 := by
  have hmx : qx &&& 0x7FF = qx := by
    have := Nat.and_pow_two_sub_one_of_lt_two_pow hx
    simpa using this
  have hmy : qy &&& 0x3FF = qy := by
    have := Nat.and_pow_two_sub_one_of_lt_two_pow hy
    simpa using this
  have hmz : qz &&& 0x7FF = qz := by
    have := Nat.and_pow_two_sub_one_of_lt_two_pow hz
    simpa using this
  rw [hmx, hmy, hmz, Nat.shiftLeft_eq, Nat.shiftLeft_eq]
  have h1 : qx ||| qy * 2 ^ 11 = qx + qy * 2 ^ 11 := by
    rw [Nat.lor_comm, mul_comm qy (2 ^ 11), ← Nat.mul_add_lt_is_or hx qy]
    omega
  have hA : qx + qy * 2 ^ 11 < 2 ^ 21 := by omega
  have h2 : (qx + qy * 2 ^ 11) ||| qz * 2 ^ 21 = qx + qy * 2 ^ 11 + qz * 2 ^ 21 := by
    rw [Nat.lor_comm, mul_comm qz (2 ^ 21), ← Nat.mul_add_lt_is_or hA qz]
    omega
  rw [h1, h2]

lemma clamp_noop (c : ℚ) (h1 : -1 ≤ c) (h2 : c ≤ 1) :
    clampQ (c * (1 / 2) + 1 / 2) 0 1 = (c + 1) / 2 := by
  unfold clampQ
  rw [max_eq_left (by linarith [h1, h2]), min_eq_left (by linarith [h1, h2])]
  ring

lemma floor_bound (c : ℚ) (m : Nat) (h2 : c ≤ 1) :
    (⌊(c + 1) / 2 * (m : ℚ)⌋).toNat ≤ m := by
  have hle : (c + 1) / 2 * (m : ℚ) ≤ m := by
    have hm : (0 : ℚ) ≤ m := Nat.cast_nonneg m
    nlinarith
  have := Int.floor_le_floor hle
  rw [Int.floor_natCast] at this
  omega

/-- **C5** (counterexample): at the input direction `(0, 0, 0)` the
encoder writes 1023 into bits 0..10, while the claimed mapping
`round((c + 1) / 2 * 2047)` gives 1024: the encoder truncates, it does
not round. -/
theorem c5_encoder_truncates_not_rounds :
    pack_11_10_11 0 0 0 % 2 ^ 11 = 1023 ∧
    round (((0 : ℚ) + 1) / 2 * 2047) = 1024 ∧
    ((pack_11_10_11 0 0 0 % 2 ^ 11 : ℕ) : ℤ) ≠ round (((0 : ℚ) + 1) / 2 * 2047) := by
  have hqx : (⌊clampQ ((0 : ℚ) * (1 / 2) + 1 / 2) 0 1 * 2047⌋).toNat = 1023 := by
    have h : (⌊clampQ ((0 : ℚ) * (1 / 2) + 1 / 2) 0 1 * 2047⌋ : ℤ) = 1023 := by
      norm_num [clampQ]
    rw [h]
    rfl
  have hqy : (⌊clampQ ((0 : ℚ) * (1 / 2) + 1 / 2) 0 1 * 1023⌋).toNat = 511 := by
    have h : (⌊clampQ ((0 : ℚ) * (1 / 2) + 1 / 2) 0 1 * 1023⌋ : ℤ) = 511 := by
      norm_num [clampQ]
    rw [h]
    rfl
  have hpack : pack_11_10_11 0 0 0 % 2 ^ 11 = 1023 := by
    show ((⌊clampQ ((0 : ℚ) * (1 / 2) + 1 / 2) 0 1 * 2047⌋).toNat &&& 0x7FF |||
        ((⌊clampQ ((0 : ℚ) * (1 / 2) + 1 / 2) 0 1 * 1023⌋).toNat &&& 0x3FF) <<< 11 |||
        ((⌊clampQ ((0 : ℚ) * (1 / 2) + 1 / 2) 0 1 * 2047⌋).toNat &&& 0x7FF) <<< 21) %
        2 ^ 11 = 1023
    rw [hqx, hqy]
    decide
  have hround : round (((0 : ℚ) + 1) / 2 * 2047) = 1024 := by
    rw [round_eq]
    norm_num
  refine ⟨hpack, hround, ?_⟩
  rw [hpack, hround]
  norm_num

/-- **C5** (amended): for components in [-1, 1] the encoder produces a
u32 with the x channel in bits 0..10, the y channel in bits 11..20 and
the z channel in bits 21..31, each channel mapped from [-1, 1] by
`floor((c + 1) / 2 * max_int)` (truncation, not rounding), with
`max_int = 2047` for x and z and `1023` for y. -/
theorem c5_pack_bit_layout (x y z : ℚ) (hx1 : -1 ≤ x) (hx2 : x ≤ 1) (hy1 : -1 ≤ y)
    (hy2 : y ≤ 1) (hz1 : -1 ≤ z) (hz2 : z ≤ 1) :
    pack_11_10_11 x y z % 2 ^ 11 = (⌊(x + 1) / 2 * 2047⌋).toNat ∧
    pack_11_10_11 x y z / 2 ^ 11 % 2 ^ 10 = (⌊(y + 1) / 2 * 1023⌋).toNat ∧
    pack_11_10_11 x y z / 2 ^ 21 = (⌊(z + 1) / 2 * 2047⌋).toNat := by
  have ex : pack_11_10_11 x y z =
      (⌊(x + 1) / 2 * 2047⌋).toNat + (⌊(y + 1) / 2 * 1023⌋).toNat * 2 ^ 11 +
        (⌊(z + 1) / 2 * 2047⌋).toNat * 2 ^ 21 := by
    show (⌊clampQ (x * (1 / 2) + 1 / 2) 0 1 * 2047⌋).toNat &&& 0x7FF |||
        ((⌊clampQ (y * (1 / 2) + 1 / 2) 0 1 * 1023⌋).toNat &&& 0x3FF) <<< 11 |||
        ((⌊clampQ (z * (1 / 2) + 1 / 2) 0 1 * 2047⌋).toNat &&& 0x7FF) <<< 21 = _
    rw [clamp_noop x hx1 hx2, clamp_noop y hy1 hy2, clamp_noop z hz1 hz2]
    have bx := floor_bound x 2047 hx2
    have by' := floor_bound y 1023 hy2
    have bz := floor_bound z 2047 hz2
    have bx2 : (⌊(x + 1) / 2 * 2047⌋).toNat < 2 ^ 11 := by
      have h2047 : ((2047 : Nat) : ℚ) = (2047 : ℚ) := by norm_num
      rw [h2047] at bx
      omega
    have by2 : (⌊(y + 1) / 2 * 1023⌋).toNat < 2 ^ 10 := by
      have h1023 : ((1023 : Nat) : ℚ) = (1023 : ℚ) := by norm_num
      rw [h1023] at by'
      omega
    have bz2 : (⌊(z + 1) / 2 * 2047⌋).toNat < 2 ^ 11 := by
      have h2047 : ((2047 : Nat) : ℚ) = (2047 : ℚ) := by norm_num
      rw [h2047] at bz
      omega
    exact pack_fields _ _ _ bx2 by2 bz2
  have bx := floor_bound x 2047 hx2
  have by' := floor_bound y 1023 hy2
  have bz := floor_bound z 2047 hz2
  rw [ex]
  have hbx : (⌊(x + 1) / 2 * 2047⌋).toNat ≤ 2047 := by
    have h2047 : ((2047 : Nat) : ℚ) = (2047 : ℚ) := by norm_num
    rw [h2047] at bx
    omega
  have hby : (⌊(y + 1) / 2 * 1023⌋).toNat ≤ 1023 := by
    have h1023 : ((1023 : Nat) : ℚ) = (1023 : ℚ) := by norm_num
    rw [h1023] at by'
    omega
  refine ⟨?_, ?_, ?_⟩ <;> omega

/-- Witness for `c5_pack_bit_layout` at the direction `(1, 0, -1)`. -/
theorem c5_pack_bit_layout_witness :
    pack_11_10_11 1 0 (-1) % 2 ^ 11 = (⌊((1 : ℚ) + 1) / 2 * 2047⌋).toNat ∧
    pack_11_10_11 1 0 (-1) / 2 ^ 11 % 2 ^ 10 = (⌊((0 : ℚ) + 1) / 2 * 1023⌋).toNat ∧
    pack_11_10_11 1 0 (-1) / 2 ^ 21 = (⌊((-1 : ℚ) + 1) / 2 * 2047⌋).toNat :=
  c5_pack_bit_layout 1 0 (-1) (by norm_num) (by norm_num) (by norm_num) (by norm_num)
    (by norm_num) (by norm_num)

/-! ## C1: the radix sorter (`radix_sort.rs`, `prepare_radix_sort_bind_groups`,
and the radix_sort.wgsl shader stages) -/

/-- `DrawIndirectCommand` (`gaussian_point_cloud.rs:1600-1607`): the
16-byte indirect-draw record `{vertex_count, instance_count,
first_vertex, first_instance}`; the cull pass writes the visible count
into `instance_count`. -/
structure DrawIndirectArgs where
  vertex_count : Nat
  instance_count : Nat
  first_vertex : Nat
  first_instance : Nat
deriving Repr, DecidableEq

/-- Modelled from the spec: the byte `(key >> (8 * pass)) & 0xFF`
extracted by the radix_sort.wgsl upsweep/downsweep stages, which are not
under `src/` (the host file binds the shader per pass with
`bit_shift = pass * 8`). -/
def byteAt (p k : Nat) : Nat := k / 2 ^ (8 * p) % 256

/-- Modelled from the spec: the effect of one upsweep → spine → downsweep
round of radix_sort.wgsl (not under `src/`), sequentialized. The
histogram / exclusive-prefix-sum / scatter combination places the
elements bucket by bucket in increasing digit order, preserving the
input order inside each digit bucket (the stable counting-sort scatter
of §4.4, matching the CPU reference in `tests/radix_sort_tests.rs`);
`ds` enumerates the digit buckets, 0..255. -/
def bucketsFlat (p : Nat) (ds : List Nat) (l : List (Nat × Nat)) : List (Nat × Nat) :=
  (ds.map (fun d => l.filter (fun kv => byteAt p kv.1 == d))).flatten

/-- Modelled from the spec: one full 8-bit radix pass over the
(depth_key, splat_index) pairs. -/
def radixPass (p : Nat) (l : List (Nat × Nat)) : List (Nat × Nat) :=
  bucketsFlat p (List.range 256) l

/-- Modelled from the spec: the four 8-bit passes of `execute_radix_sort`
(`radix_sort.rs:246-294`) with shifts 0, 8, 16, 24; the ping-pong rule of
`prepare_radix_sort_bind_groups` (even passes read the original buffers
and write the temps, odd passes write back) leaves the final data in the
original `(depth_keys, visible_indices)` buffers. -/
def radixSortPairs (l : List (Nat × Nat)) : List (Nat × Nat) :=
  radixPass 3 (radixPass 2 (radixPass 1 (radixPass 0 l)))

/-- Modelled from the spec: `execute_radix_sort` acting on the pair
buffer. All three shader stages are bound to the indirect-draw record
(`prepare_radix_sort_bind_groups`, `gaussian_point_cloud.rs:2236, 2249,
2263`) and read `indirect.instance_count` as the dynamic element count,
so only the prefix of that length is sorted; the
`SortParams.max_element_count` value (the configured capacity) does not
influence which elements are sorted and is an ignored argument here. -/
def execute_radix_sort (max_element_count : Nat) (indirect : DrawIndirectArgs)
    (pairs : List (Nat × Nat)) : List (Nat × Nat) :=
  radixSortPairs (pairs.take indirect.instance_count) ++
    pairs.drop indirect.instance_count

lemma byteAt_lt (p k : Nat) : byteAt p k < 256 := Nat.mod_lt _ (by norm_num)

lemma bucketsFlat_perm (p : Nat) (ds : List Nat) (hnd : ds.Nodup) :
    ∀ l : List (Nat × Nat), (∀ kv ∈ l, byteAt p kv.1 ∈ ds) →
      (bucketsFlat p ds l).Perm l := by
  induction ds with
  | nil =>
    intro l hcover
    have hl : l = [] := by
      rw [List.eq_nil_iff_forall_not_mem]
      intro x hx
      exact absurd (hcover x hx) (List.not_mem_nil _)
    subst hl
    simp [bucketsFlat]
  | cons d ds ih =>
    intro l hcover
    have hdnotin : d ∉ ds := (List.nodup_cons.mp hnd).1
    have hnd2 : ds.Nodup := (List.nodup_cons.mp hnd).2
    have hrest : bucketsFlat p ds l =
        bucketsFlat p ds (l.filter (fun kv => !(byteAt p kv.1 == d))) := by
      unfold bucketsFlat
      congr 1
      refine List.map_congr_left ?_
      intro e he
      rw [List.filter_filter]
      refine (List.filter_congr ?_).symm
      intro kv _
      by_cases hb : byteAt p kv.1 = e
      · have hed : e ≠ d := fun hc => hdnotin (hc ▸ he)
        simp [hb, hed]
      · simp [hb]
    have hcover2 : ∀ kv ∈ l.filter (fun kv => !(byteAt p kv.1 == d)),
        byteAt p kv.1 ∈ ds := by
      intro kv hkv
      obtain ⟨hmem, hflt⟩ := List.mem_filter.mp hkv
      have hne : byteAt p kv.1 ≠ d := by simpa using hflt
      have := hcover kv hmem
      rw [List.mem_cons] at this
      tauto
    have e1 : bucketsFlat p (d :: ds) l =
        l.filter (fun kv => byteAt p kv.1 == d) ++ bucketsFlat p ds l := by
      unfold bucketsFlat
      rw [List.map_cons, List.flatten_cons]
    rw [e1, hrest]
    exact List.Perm.trans (List.Perm.append_left _ (ih hnd2 _ hcover2))
      (List.filter_append_perm _ l)

lemma perm_radixPass (p : Nat) (l : List (Nat × Nat)) : (radixPass p l).Perm l := by
  refine bucketsFlat_perm p (List.range 256) (List.nodup_range 256) l ?_
  intro kv _
  exact List.mem_range.mpr (byteAt_lt p kv.1)

/-- Pairs compared by key modulo `m`. -/
def keyLe (m : Nat) (a b : Nat × Nat) : Prop := a.1 % m ≤ b.1 % m

lemma mod_pow_succ_decomp (p k : Nat) :
    k % 2 ^ (8 * (p + 1)) = k % 2 ^ (8 * p) + 2 ^ (8 * p) * byteAt p k := by
  have h : 2 ^ (8 * (p + 1)) = 2 ^ (8 * p) * 256 := by
    rw [show 8 * (p + 1) = 8 * p + 8 by ring, pow_add]
    norm_num
  rw [h, Nat.mod_mul]
  rfl

lemma keyLe_step_eq (p : Nat) {a b : Nat × Nat} (hd : byteAt p a.1 = byteAt p b.1)
    (h : keyLe (2 ^ (8 * p)) a b) : keyLe (2 ^ (8 * (p + 1))) a b := by
  unfold keyLe at h ⊢
  rw [mod_pow_succ_decomp, mod_pow_succ_decomp, hd]
  exact Nat.add_le_add_right h _

lemma keyLe_step_lt (p : Nat) {a b : Nat × Nat} (hd : byteAt p a.1 < byteAt p b.1) :
    keyLe (2 ^ (8 * (p + 1))) a b := by
  unfold keyLe
  rw [mod_pow_succ_decomp, mod_pow_succ_decomp]
  have ha : a.1 % 2 ^ (8 * p) < 2 ^ (8 * p) :=
    Nat.mod_lt _ (Nat.pos_pow_of_pos _ (by norm_num))
  have h1 : a.1 % 2 ^ (8 * p) + 2 ^ (8 * p) * byteAt p a.1 <
      2 ^ (8 * p) * (byteAt p a.1 + 1) := by
    rw [Nat.mul_add, Nat.mul_one]
    omega
  have h2 : 2 ^ (8 * p) * (byteAt p a.1 + 1) ≤ 2 ^ (8 * p) * byteAt p b.1 :=
    Nat.mul_le_mul_left _ (by omega)
  omega

lemma pairwise_keyLe_zero (l : List (Nat × Nat)) : l.Pairwise (keyLe (2 ^ (8 * 0))) := by
  have htriv : ∀ a b : Nat × Nat, keyLe (2 ^ (8 * 0)) a b := by
    intro a b
    unfold keyLe
    omega
  induction l with
  | nil => exact List.Pairwise.nil
  | cons a t ih => exact List.Pairwise.cons (fun b _ => htriv a b) ih

lemma pass_sorted (p : Nat) (l : List (Nat × Nat))
    (h : l.Pairwise (keyLe (2 ^ (8 * p)))) :
    (radixPass p l).Pairwise (keyLe (2 ^ (8 * (p + 1)))) := by
  unfold radixPass bucketsFlat
  rw [List.pairwise_flatten]
  constructor
  · intro bucket hb
    obtain ⟨d, _, rfl⟩ := List.mem_map.mp hb
    have hsmall : (l.filter (fun kv => byteAt p kv.1 == d)).Pairwise
        (keyLe (2 ^ (8 * p))) := h.filter _
    refine hsmall.imp_of_mem ?_
    intro a b ha hb hab
    have hda : byteAt p a.1 = d := by simpa using (List.mem_filter.mp ha).2
    have hdb : byteAt p b.1 = d := by simpa using (List.mem_filter.mp hb).2
    exact keyLe_step_eq p (hda.trans hdb.symm) hab
  · rw [List.pairwise_map]
    have hr : (List.range 256).Pairwise (· < ·) := List.pairwise_lt_range 256
    refine hr.imp ?_
    intro d1 d2 hlt x hx y hy
    have hda : byteAt p x.1 = d1 := by simpa using (List.mem_filter.mp hx).2
    have hdb : byteAt p y.1 = d2 := by simpa using (List.mem_filter.mp hy).2
    exact keyLe_step_lt p (by rw [hda, hdb]; exact hlt)

lemma perm_radixSortPairs (l : List (Nat × Nat)) : (radixSortPairs l).Perm l := by
  unfold radixSortPairs
  exact ((perm_radixPass 3 _).trans ((perm_radixPass 2 _).trans
    ((perm_radixPass 1 _).trans (perm_radixPass 0 l))))

lemma radixSortPairs_pairwise (l : List (Nat × Nat)) :
    (radixSortPairs l).Pairwise (keyLe (2 ^ 32)) := by
  have h0 := pass_sorted 0 l (pairwise_keyLe_zero l)
  have h1 := pass_sorted 1 _ h0
  have h2 := pass_sorted 2 _ h1
  have h3 := pass_sorted 3 _ h2
  have h32 : 8 * (3 + 1) = 32 := by norm_num
  rw [h32] at h3
  exact h3

lemma radixSortPairs_sorted (l : List (Nat × Nat)) (hk : ∀ kv ∈ l, kv.1 < 2 ^ 32) :
    (radixSortPairs l).Pairwise (fun a b => a.1 ≤ b.1) := by
  refine (radixSortPairs_pairwise l).imp_of_mem ?_
  intro a b ha hb hab
  have hka : a.1 < 2 ^ 32 := hk a ((perm_radixSortPairs l).mem_iff.mp ha)
  have hkb : b.1 < 2 ^ 32 := hk b ((perm_radixSortPairs l).mem_iff.mp hb)
  unfold keyLe at hab
  rwa [Nat.mod_eq_of_lt hka, Nat.mod_eq_of_lt hkb] at hab

lemma take_execute (maxc : Nat) (ind : DrawIndirectArgs) (pairs : List (Nat × Nat)) :
    (execute_radix_sort maxc ind pairs).take ind.instance_count =
      radixSortPairs (pairs.take ind.instance_count) := by
  have hlen : (radixSortPairs (pairs.take ind.instance_count)).length =
      min ind.instance_count pairs.length := by
    rw [(perm_radixSortPairs _).length_eq, List.length_take]
  unfold execute_radix_sort
  rw [List.take_append_eq_append_take]
  have h1 : (radixSortPairs (pairs.take ind.instance_count)).length ≤
      ind.instance_count := by omega
  rw [List.take_of_length_le h1]
  have h2 : (pairs.drop ind.instance_count).take
      (ind.instance_count - (radixSortPairs (pairs.take ind.instance_count)).length) =
      [] := by
    by_cases hc : ind.instance_count ≤ pairs.length
    · have hz : ind.instance_count -
          (radixSortPairs (pairs.take ind.instance_count)).length = 0 := by omega
      rw [hz, List.take_zero]
    · have hd : pairs.drop ind.instance_count = [] :=
        List.drop_eq_nil_of_le (by omega)
      rw [hd, List.take_nil]
  rw [h2, List.append_nil]

/-- **C1**: after the four radix passes, the prefix of the
`(depth_keys, visible_indices)` pair array of length
`indirect.instance_count` — the count produced by the cull pass into the
indirect-draw record, read dynamically by every sort dispatch — is a
permutation of the input prefix sorted non-decreasing by `depth_keys`
(for any u32 keys), while the remaining elements and the total length
are preserved; the result is the same for every value of the configured
capacity `max_element_count`. -/
theorem c1_radix_sort_sorted_prefix (max_element_count : Nat)
    (indirect : DrawIndirectArgs) (pairs : List (Nat × Nat))
    (hkeys : ∀ kv ∈ pairs, kv.1 < 2 ^ 32) :
    ((execute_radix_sort max_element_count indirect pairs).take
        indirect.instance_count).Pairwise (fun a b => a.1 ≤ b.1) ∧
    ((execute_radix_sort max_element_count indirect pairs).take
        indirect.instance_count).Perm (pairs.take indirect.instance_count) ∧
    (execute_radix_sort max_element_count indirect pairs).length = pairs.length := by
  rw [take_execute]
  refine ⟨?_, perm_radixSortPairs _, ?_⟩
  · refine radixSortPairs_sorted _ ?_
    intro kv hkv
    exact hkeys kv (List.mem_of_mem_take hkv)
  · unfold execute_radix_sort
    rw [List.length_append, (perm_radixSortPairs _).length_eq, List.length_take,
      List.length_drop]
    omega

/-- Witness for `c1_radix_sort_sorted_prefix`: four pairs, cull count 3
(the fourth pair is outside the sorted prefix), capacity parameter 7. -/
theorem c1_radix_sort_sorted_prefix_witness :
    ((execute_radix_sort 7 ⟨4, 3, 0, 0⟩ [(5, 0), (1, 1), (3, 2), (9, 9)]).take 3).Pairwise
      (fun a b => a.1 ≤ b.1) ∧
    ((execute_radix_sort 7 ⟨4, 3, 0, 0⟩ [(5, 0), (1, 1), (3, 2), (9, 9)]).take 3).Perm
      ([(5, 0), (1, 1), (3, 2), (9, 9)].take 3) ∧
    (execute_radix_sort 7 ⟨4, 3, 0, 0⟩ [(5, 0), (1, 1), (3, 2), (9, 9)]).length = 4 :=
  c1_radix_sort_sorted_prefix 7 ⟨4, 3, 0, 0⟩ [(5, 0), (1, 1), (3, 2), (9, 9)]
    (by decide)

end GSplat
